import Mathlib

/-!
Verification development for the IMAP mail cleaner (src/imap_mail_cleaner.py).

The Python source is shallowly embedded below.  Instants (Python
`datetime.datetime` values carrying `tzinfo=utc`) are records of calendar
components; Python's proleptic-Gregorian calendar arithmetic (`date()`,
`timedelta(days=1)`, `strftime`, `strptime`) is embedded through an
explicit days-from-civil conversion and a character-level parser.
Network-facing methods are embedded as pure functions from oracle inputs
(server answers, header contents, which STORE calls raise) to the list of
IMAP commands they issue plus their return value, so that claims about
command traces are statable.
-/

/-- Leap-year test of the proleptic Gregorian calendar, as implemented by
Python's `calendar`/`datetime` modules. -/
def isLeapYear (y : Nat) : Bool :=
  y % 4 = 0 && (y % 100 != 0 || y % 400 = 0)

/-- Number of days in a month of the proleptic Gregorian calendar
(Python `calendar.monthrange` semantics, used by `datetime` validation). -/
def daysInMonth (y m : Nat) : Nat :=
  if m = 2 then (if isLeapYear y then 29 else 28)
  else if m = 4 ∨ m = 6 ∨ m = 9 ∨ m = 11 then 30
  else 31

/-- Days elapsed since 0000-03-01 of the civil date `(y, m, d)` (meaningful
for `1 ≤ y`): the standard days-from-civil computation underlying Python's
`datetime.toordinal`, so that `daysFromCivil 1970 1 1 = 719468`. -/
def daysFromCivil (y m d : Nat) : Nat :=
  ((y - (if m ≤ 2 then 1 else 0)) / 400) * 146097 +
    (((y - (if m ≤ 2 then 1 else 0)) % 400) * 365 +
      ((y - (if m ≤ 2 then 1 else 0)) % 400) / 4 -
      ((y - (if m ≤ 2 then 1 else 0)) % 400) / 100 +
      ((153 * ((m + 9) % 12) + 2) / 5 + (d - 1)))

/-- Embedding of a time-zone-aware Python `datetime.datetime` whose
`tzinfo` is UTC, at minute resolution — exactly the values produced by
`parse_time_str` in the source.  Comparisons of such values in Python
compare the instants they denote. -/
structure PyDateTime where
  year : Nat
  month : Nat
  day : Nat
  hour : Nat
  minute : Nat
deriving DecidableEq

/-- Validity of the calendar components, as enforced by the Python
`datetime` constructor (`MINYEAR = 1`, `MAXYEAR = 9999`, day bounded by
the month length). -/
def validDT (x : PyDateTime) : Prop :=
  1 ≤ x.year ∧ x.year ≤ 9999 ∧ 1 ≤ x.month ∧ x.month ≤ 12 ∧
    1 ≤ x.day ∧ x.day ≤ daysInMonth x.year x.month ∧ x.hour ≤ 23 ∧ x.minute ≤ 59

instance (x : PyDateTime) : Decidable (validDT x) := by
  unfold validDT; infer_instance

/-- Day number of the calendar date of `x` relative to the Unix epoch
(1970-01-01 is day 0): the value Python's `x.date()` denotes, linearly
ordered. -/
def dayNum (x : PyDateTime) : Int :=
  (daysFromCivil x.year x.month x.day : Int) - 719468

/-- Instant denoted by a UTC `PyDateTime`, in minutes since the Unix
epoch.  Python's comparison of aware datetimes is the order on this
value. -/
def toMinutes (x : PyDateTime) : Int :=
  1440 * dayNum x + (60 * x.hour + x.minute : Nat)

/-- Calendar successor of a civil date: the date component of
`dt + timedelta(days=1)` for a fixed-offset aware `dt` (adding 24 hours
moves the wall-clock date forward by exactly one day). -/
def nextDay (y m d : Nat) : Nat × Nat × Nat :=
  if d < daysInMonth y m then (y, m, d + 1)
  else if m < 12 then (y, m + 1, 1)
  else (y + 1, 1, 1)

/-- Embedding of `end_time + datetime.timedelta(days=1)` from
`search_messages_in_timerange` (line 228 of the source): same wall-clock
time on the next calendar day. -/
def addOneDay (x : PyDateTime) : PyDateTime :=
  let t := nextDay x.year x.month x.day
  ⟨t.1, t.2.1, t.2.2, x.hour, x.minute⟩

theorem daysInMonth_le_31 (y m : Nat) : daysInMonth y m ≤ 31 := by
  unfold daysInMonth
  split
  · split <;> omega
  · split <;> omega

theorem daysFromCivil_flat (y m d : Nat) :
    daysFromCivil y m d =
      365 * (y - (if m ≤ 2 then 1 else 0)) + (y - (if m ≤ 2 then 1 else 0)) / 4
        - (y - (if m ≤ 2 then 1 else 0)) / 100 + (y - (if m ≤ 2 then 1 else 0)) / 400
        + ((153 * ((m + 9) % 12) + 2) / 5 + (d - 1)) := by
  simp only [daysFromCivil]
  split_ifs <;> omega

set_option maxHeartbeats 2000000 in
theorem daysFromCivil_febMar (y : Nat) (hy : 1 ≤ y) :
    daysFromCivil y 3 1 = daysFromCivil y 2 (daysInMonth y 2) + 1 := by
  have e2 : (if (2:Nat) ≤ 2 then (1:Nat) else 0) = 1 := rfl
  have e3 : (if (3:Nat) ≤ 2 then (1:Nat) else 0) = 0 := rfl
  have hleap : isLeapYear y = true ↔ (y % 4 = 0 ∧ (y % 100 ≠ 0 ∨ y % 400 = 0)) := by
    simp [isLeapYear]
  cases hL : isLeapYear y
  · simp only [hL, Bool.false_eq_true, false_iff] at hleap
    have hdm : daysInMonth y 2 = 28 := by simp [daysInMonth, hL]
    simp only [hdm, daysFromCivil_flat, e2, e3]
    omega
  · have hl : y % 4 = 0 ∧ (y % 100 ≠ 0 ∨ y % 400 = 0) := hleap.mp hL
    have hdm : daysInMonth y 2 = 29 := by simp [daysInMonth, hL]
    simp only [hdm, daysFromCivil_flat, e2, e3]
    omega

theorem daysFromCivil_nextDay (y m d : Nat) (hy : 1 ≤ y) (hm1 : 1 ≤ m)
    (hm2 : m ≤ 12) (hd1 : 1 ≤ d) (hd2 : d ≤ daysInMonth y m) :
    daysFromCivil (nextDay y m d).1 (nextDay y m d).2.1 (nextDay y m d).2.2 =
      daysFromCivil y m d + 1 := by
  unfold nextDay
  by_cases hlt : d < daysInMonth y m
  · simp only [if_pos hlt]
    simp only [daysFromCivil_flat]
    omega
  · have hde : d = daysInMonth y m := by omega
    by_cases h12 : m < 12
    · simp only [if_neg hlt, if_pos h12]
      subst hde
      have e1 : (if (1:Nat) ≤ 2 then (1:Nat) else 0) = 1 := rfl
      have e2 : (if (2:Nat) ≤ 2 then (1:Nat) else 0) = 1 := rfl
      have e3 : (if (3:Nat) ≤ 2 then (1:Nat) else 0) = 0 := rfl
      have e4 : (if (4:Nat) ≤ 2 then (1:Nat) else 0) = 0 := rfl
      have e5 : (if (5:Nat) ≤ 2 then (1:Nat) else 0) = 0 := rfl
      have e6 : (if (6:Nat) ≤ 2 then (1:Nat) else 0) = 0 := rfl
      have e7 : (if (7:Nat) ≤ 2 then (1:Nat) else 0) = 0 := rfl
      have e8 : (if (8:Nat) ≤ 2 then (1:Nat) else 0) = 0 := rfl
      have e9 : (if (9:Nat) ≤ 2 then (1:Nat) else 0) = 0 := rfl
      have e10 : (if (10:Nat) ≤ 2 then (1:Nat) else 0) = 0 := rfl
      have e11 : (if (11:Nat) ≤ 2 then (1:Nat) else 0) = 0 := rfl
      have e12 : (if (12:Nat) ≤ 2 then (1:Nat) else 0) = 0 := rfl
      interval_cases m
      · simp only [show daysInMonth y 1 = 31 from rfl, daysFromCivil_flat, e1, e2]
      · exact daysFromCivil_febMar y hy
      · simp only [show daysInMonth y 3 = 31 from rfl, daysFromCivil_flat, e3, e4]
      · simp only [show daysInMonth y 4 = 30 from rfl, daysFromCivil_flat, e4, e5]
      · simp only [show daysInMonth y 5 = 31 from rfl, daysFromCivil_flat, e5, e6]
      · simp only [show daysInMonth y 6 = 30 from rfl, daysFromCivil_flat, e6, e7]
      · simp only [show daysInMonth y 7 = 31 from rfl, daysFromCivil_flat, e7, e8]
      · simp only [show daysInMonth y 8 = 31 from rfl, daysFromCivil_flat, e8, e9]
      · simp only [show daysInMonth y 9 = 30 from rfl, daysFromCivil_flat, e9, e10]
      · simp only [show daysInMonth y 10 = 31 from rfl, daysFromCivil_flat, e10, e11]
      · simp only [show daysInMonth y 11 = 30 from rfl, daysFromCivil_flat, e11, e12]
    · simp only [if_neg hlt, if_neg h12]
      have hm12 : m = 12 := by omega
      subst hm12
      have hd31 : d = 31 := by
        simpa [daysInMonth] using hde
      subst hd31
      simp only [daysFromCivil_flat,
        show (if (1:Nat) ≤ 2 then (1:Nat) else 0) = 1 from rfl,
        show (if (12:Nat) ≤ 2 then (1:Nat) else 0) = 0 from rfl]
      omega

theorem dayNum_addOneDay (x : PyDateTime) (hx : validDT x) :
    dayNum (addOneDay x) = dayNum x + 1 := by
  obtain ⟨y, m, d, hh, mi⟩ := x
  obtain ⟨h1, h2, h3, h4, h5, h6, h7, h8⟩ := hx
  have key := daysFromCivil_nextDay y m d h1 h3 h4 h5 h6
  simp only [addOneDay, dayNum] at *
  omega

theorem dayNum_mono (a b : PyDateTime) (ha : validDT a) (hb : validDT b)
    (h : toMinutes a ≤ toMinutes b) : dayNum a ≤ dayNum b := by
  obtain ⟨-, -, -, -, -, -, ha7, ha8⟩ := ha
  obtain ⟨-, -, -, -, -, -, hb7, hb8⟩ := hb
  unfold toMinutes at h
  omega

/-- Numeric value of a digit character. -/
def digitVal (c : Char) : Nat := c.toNat - 48

/-- Two zero-padded decimal digits, as produced by `strftime` field
specifiers such as `%d`, `%H`, `%M` (and `%m`). -/
def pad2 (n : Nat) : List Char :=
  [Nat.digitChar (n / 10), Nat.digitChar (n % 10)]

/-- Four zero-padded decimal digits, as produced by `strftime` `%Y` for
years up to 9999. -/
def pad4 (n : Nat) : List Char :=
  [Nat.digitChar (n / 1000), Nat.digitChar (n / 100 % 10),
    Nat.digitChar (n / 10 % 10), Nat.digitChar (n % 10)]

/-- English month abbreviation used by `strftime("%b")` in the C locale,
as relied on by the source when it builds IMAP date atoms. -/
def monthAbbrev : Nat → String
  | 1 => "Jan"
  | 2 => "Feb"
  | 3 => "Mar"
  | 4 => "Apr"
  | 5 => "May"
  | 6 => "Jun"
  | 7 => "Jul"
  | 8 => "Aug"
  | 9 => "Sep"
  | 10 => "Oct"
  | 11 => "Nov"
  | 12 => "Dec"
  | _ => ""

/-- Embedding of `dt.strftime("%d-%b-%Y")`, the IMAP date-atom format the
source uses at lines 224 and 228. -/
def strftimeDMY (x : PyDateTime) : String :=
  String.mk (pad2 x.day) ++ "-" ++ monthAbbrev x.month ++ "-" ++ String.mk (pad4 x.year)

/-- Parser for the `%Y` field of `datetime.strptime`: exactly four decimal
digits (CPython `_strptime` regex fragment for `Y`). -/
def parse4 : List Char → Option (Nat × List Char)
  | c0 :: c1 :: c2 :: c3 :: rest =>
    if c0.isDigit ∧ c1.isDigit ∧ c2.isDigit ∧ c3.isDigit then
      some (1000 * digitVal c0 + 100 * digitVal c1 + 10 * digitVal c2 + digitVal c3, rest)
    else none
  | _ => none

/-- Parser for the `%m` field of `datetime.strptime`: CPython regex
alternation `1[0-2]`, then `0[1-9]`, then `[1-9]`. -/
def parseMonthTok : List Char → Option (Nat × List Char)
  | [] => none
  | c0 :: rest0 =>
    match rest0 with
    | c1 :: rest1 =>
      if c0 = '1' ∧ c1.isDigit ∧ digitVal c1 ≤ 2 then some (10 + digitVal c1, rest1)
      else if c0 = '0' ∧ c1.isDigit ∧ 1 ≤ digitVal c1 then some (digitVal c1, rest1)
      else if c0.isDigit ∧ 1 ≤ digitVal c0 then some (digitVal c0, rest0)
      else none
    | [] =>
      if c0.isDigit ∧ 1 ≤ digitVal c0 then some (digitVal c0, []) else none

/-- Parser for the `%d` field of `datetime.strptime`: CPython regex
alternation `3[01]`, `[12][0-9]`, `0[1-9]`, `[1-9]`. -/
def parseDayTok : List Char → Option (Nat × List Char)
  | [] => none
  | c0 :: rest0 =>
    match rest0 with
    | c1 :: rest1 =>
      if c0 = '3' ∧ c1.isDigit ∧ digitVal c1 ≤ 1 then some (30 + digitVal c1, rest1)
      else if (c0 = '1' ∨ c0 = '2') ∧ c1.isDigit then
        some (10 * digitVal c0 + digitVal c1, rest1)
      else if c0 = '0' ∧ c1.isDigit ∧ 1 ≤ digitVal c1 then some (digitVal c1, rest1)
      else if c0.isDigit ∧ 1 ≤ digitVal c0 then some (digitVal c0, rest0)
      else none
    | [] =>
      if c0.isDigit ∧ 1 ≤ digitVal c0 then some (digitVal c0, []) else none

/-- Parser for the `%H` field of `datetime.strptime`: CPython regex
alternation `2[0-3]`, `[01][0-9]`, `[0-9]`. -/
def parseHourTok : List Char → Option (Nat × List Char)
  | [] => none
  | c0 :: rest0 =>
    match rest0 with
    | c1 :: rest1 =>
      if c0 = '2' ∧ c1.isDigit ∧ digitVal c1 ≤ 3 then some (20 + digitVal c1, rest1)
      else if (c0 = '0' ∨ c0 = '1') ∧ c1.isDigit then
        some (10 * digitVal c0 + digitVal c1, rest1)
      else if c0.isDigit then some (digitVal c0, rest0)
      else none
    | [] =>
      if c0.isDigit then some (digitVal c0, []) else none

/-- Parser for the `%M` field of `datetime.strptime`: CPython regex
alternation `[0-5][0-9]`, `[0-9]`. -/
def parseMinTok : List Char → Option (Nat × List Char)
  | [] => none
  | c0 :: rest0 =>
    match rest0 with
    | c1 :: rest1 =>
      if c0.isDigit ∧ digitVal c0 ≤ 5 ∧ c1.isDigit then
        some (10 * digitVal c0 + digitVal c1, rest1)
      else if c0.isDigit then some (digitVal c0, rest0)
      else none
    | [] =>
      if c0.isDigit then some (digitVal c0, []) else none

/-- Validation performed by the Python `datetime` constructor, which
`strptime` invokes after regex matching: year in `[MINYEAR, MAXYEAR]`,
month in `[1, 12]`, day at most the month length, hour below 24, minute
below 60.  The result models the subsequent
`dt.replace(tzinfo=datetime.timezone.utc)` at line 414: an aware UTC
datetime. -/
def mk_datetime (y m d hh mi : Nat) : Option PyDateTime :=
  if 1 ≤ y ∧ y ≤ 9999 ∧ 1 ≤ m ∧ m ≤ 12 ∧ 1 ≤ d ∧ d ≤ daysInMonth y m ∧
      hh ≤ 23 ∧ mi ≤ 59 then
    some ⟨y, m, d, hh, mi⟩
  else none

/-- Embedding of `datetime.datetime.strptime(time_str, "%Y-%m-%d %H:%M")`:
field regexes joined by the literal separators, requiring the whole string
to be consumed, then constructor validation. -/
def strptimeYmdHM (l : List Char) : Option PyDateTime :=
  match parse4 l with
  | none => none
  | some (y, l1) =>
    match l1 with
    | '-' :: l2 =>
      match parseMonthTok l2 with
      | none => none
      | some (m, l3) =>
        match l3 with
        | '-' :: l4 =>
          match parseDayTok l4 with
          | none => none
          | some (d, l5) =>
            match l5 with
            | ' ' :: l6 =>
              match parseHourTok l6 with
              | none => none
              | some (hh, l7) =>
                match l7 with
                | ':' :: l8 =>
                  match parseMinTok l8 with
                  | none => none
                  | some (mi, l9) =>
                    if l9 = [] then mk_datetime y m d hh mi else none
                | _ => none
            | _ => none
        | _ => none
    | _ => none

/-- Embedding of `datetime.datetime.strptime(time_str, "%Y-%m-%d")`. -/
def strptimeYmd (l : List Char) : Option PyDateTime :=
  match parse4 l with
  | none => none
  | some (y, l1) =>
    match l1 with
    | '-' :: l2 =>
      match parseMonthTok l2 with
      | none => none
      | some (m, l3) =>
        match l3 with
        | '-' :: l4 =>
          match parseDayTok l4 with
          | none => none
          | some (d, l5) => if l5 = [] then mk_datetime y m d 0 0 else none
        | _ => none
    | _ => none

/-- Embedding of `parse_time_str` (source lines 390-416): strings
containing a space are parsed as `%Y-%m-%d %H:%M`, others as `%Y-%m-%d`
with the time set to `00:00`; the result is made aware as UTC; a failed
parse raises `ValueError`, embedded as `none`. -/
def parse_time_str (s : String) : Option PyDateTime :=
  if ' ' ∈ s.data then strptimeYmdHM s.data else strptimeYmd s.data

/-- Modelled from the spec: `strftime("%Y-%m-%d %H:%M")`, the canonical
zero-padded rendering of an instant at minute resolution, used to state
the spec's round-trip law `parse(format(instant)) == instant`. -/
def formatYmdHM (x : PyDateTime) : String :=
  String.mk (pad4 x.year ++ '-' :: (pad2 x.month ++ '-' :: (pad2 x.day ++
    ' ' :: (pad2 x.hour ++ ':' :: pad2 x.minute))))

theorem digitVal_digitChar (n : Nat) (h : n < 10) :
    digitVal (Nat.digitChar n) = n := by
  interval_cases n <;> rfl

theorem isDigit_digitChar (n : Nat) (h : n < 10) :
    (Nat.digitChar n).isDigit = true := by
  interval_cases n <;> rfl

theorem parse4_pad4 (n : Nat) (h : n ≤ 9999) (rest : List Char) :
    parse4 (pad4 n ++ rest) = some (n, rest) := by
  have h0 : n / 1000 < 10 := by omega
  have h1 : n / 100 % 10 < 10 := Nat.mod_lt _ (by norm_num)
  have h2 : n / 10 % 10 < 10 := Nat.mod_lt _ (by norm_num)
  have h3 : n % 10 < 10 := Nat.mod_lt _ (by norm_num)
  simp only [pad4, List.cons_append, List.nil_append, parse4,
    isDigit_digitChar _ h0, isDigit_digitChar _ h1, isDigit_digitChar _ h2,
    isDigit_digitChar _ h3, digitVal_digitChar _ h0, digitVal_digitChar _ h1,
    digitVal_digitChar _ h2, digitVal_digitChar _ h3, and_self, if_true]
  have hsum : 1000 * (n / 1000) + 100 * (n / 100 % 10) + 10 * (n / 10 % 10) + n % 10 = n := by
    omega
  rw [hsum]

theorem parseMonthTok_pad2 (m : Nat) (h1 : 1 ≤ m) (h2 : m ≤ 12) (rest : List Char) :
    parseMonthTok (pad2 m ++ rest) = some (m, rest) := by
  interval_cases m <;> rfl

theorem parseDayTok_pad2 (d : Nat) (h1 : 1 ≤ d) (h2 : d ≤ 31) (rest : List Char) :
    parseDayTok (pad2 d ++ rest) = some (d, rest) := by
  interval_cases d <;> rfl

theorem parseHourTok_pad2 (h : Nat) (h1 : h ≤ 23) (rest : List Char) :
    parseHourTok (pad2 h ++ rest) = some (h, rest) := by
  interval_cases h <;> rfl

theorem parseMinTok_pad2 (mi : Nat) (h1 : mi ≤ 59) (rest : List Char) :
    parseMinTok (pad2 mi ++ rest) = some (mi, rest) := by
  interval_cases mi <;> rfl

/-- C9: for every UTC instant at minute resolution (every valid Python
datetime), parsing its zero-padded `YYYY-MM-DD HH:MM` rendering with
`parse_time_str` yields back exactly the same aware-UTC instant:
`parse(format(instant)) == instant`. -/
theorem strptime_format_roundtrip (x : PyDateTime) (hv : validDT x) :
    parse_time_str (formatYmdHM x) = some x := by
  obtain ⟨y, m, d, hh, mi⟩ := x
  obtain ⟨h1, h2, h3, h4, h5, h6, h7, h8⟩ := hv
  have hsp : ' ' ∈ (formatYmdHM ⟨y, m, d, hh, mi⟩).data := by
    simp [formatYmdHM]
  simp only [parse_time_str, if_pos hsp]
  have hdata : (formatYmdHM ⟨y, m, d, hh, mi⟩).data =
      pad4 y ++ '-' :: (pad2 m ++ '-' :: (pad2 d ++ ' ' :: (pad2 hh ++ ':' :: pad2 mi))) := rfl
  rw [hdata]
  have hmin : parseMinTok (pad2 mi) = some (mi, []) := by
    simpa using parseMinTok_pad2 mi h8 []
  simp only [strptimeYmdHM, parse4_pad4 y h2, parseMonthTok_pad2 m h3 h4,
    parseDayTok_pad2 d h5 (h6.trans (daysInMonth_le_31 y m)),
    parseHourTok_pad2 hh h7, hmin, if_pos rfl]
  simp only [mk_datetime, if_pos (And.intro h1 (And.intro h2 (And.intro h3 (And.intro h4
    (And.intro h5 (And.intro h6 (And.intro h7 h8)))))))]
  simp

/-- IMAP commands observable on the wire, at the granularity the source
issues them.  `connect` stands for opening the socket (`IMAP4_SSL`/
`IMAP4`), `login` for the `LOGIN` inside `connect()`, `fetch` for the
`BODY.PEEK[HEADER.FIELDS (SUBJECT FROM DATE)]` fetch of
`get_message_info`, `store` for `STORE <id> +FLAGS \Deleted`. -/
inductive Cmd
  | connect
  | login
  | listCmd
  | select (folder : String)
  | search (query : String)
  | fetch (msgId : String)
  | store (msgId : String)
  | expunge
  | logout
deriving DecidableEq

/-- Outcome of the `conn.fetch` in `get_message_info` for a given message
id, as an oracle: the call raised (`exn`), returned a non-OK status
(`notOk`), returned empty data (`emptyData`), or returned a header section
in which each of the three requested fields is present or absent. -/
inductive FetchResult
  | exn
  | notOk
  | emptyData
  | ok (subject sender date : Option String)
deriving DecidableEq

/-- Embedding of `IMAPMailCleaner.get_message_info` (source lines
285-317): non-OK status, empty data and a raised exception all return
three empty strings; missing headers in a fetched section default to the
sentinels via `msg.get`.  The function is total: no outcome propagates an
exception to the caller. -/
def get_message_info (h : String → FetchResult) (i : String) : String × String × String :=
  match h i with
  | FetchResult.exn => ("", "", "")
  | FetchResult.notOk => ("", "", "")
  | FetchResult.emptyData => ("", "", "")
  | FetchResult.ok s f d =>
      (s.getD "No Subject", f.getD "Unknown Sender", d.getD "Unknown Date")

/-- Embedding of the refinement loop of `search_messages_in_timerange`
(source lines 251-280).  `pd` is the oracle for
`email.utils.parsedate_to_datetime` composed with the aware comparison:
`some t` when the date string parses to an aware instant `t` (in minutes
since the epoch), `none` when parsing raises `TypeError`/`ValueError`
(including the naive-datetime comparison failure).  Returns the kept ids
in order together with the `time_filtered_count` and `parsing_errors`
counters. -/
def refineLoop (h : String → FetchResult) (pd : String → Option Int)
    (lo hi : Int) : List String → List String × Nat × Nat
  | [] => ([], 0, 0)
  | i :: rest =>
    let r := refineLoop h pd lo hi rest
    match pd (get_message_info h i).2.2 with
    | some t => if lo ≤ t ∧ t ≤ hi then (i :: r.1, r.2.1, r.2.2)
                else (r.1, r.2.1 + 1, r.2.2)
    | none => (r.1, r.2.1, r.2.2 + 1)

/-- Embedding of the IMAP query string built in
`search_messages_in_timerange` (source lines 224-231):
`SINCE <start.strftime(%d-%b-%Y)> BEFORE <(end+1day).strftime(%d-%b-%Y)>`. -/
def searchQuery (st en : PyDateTime) : String :=
  "SINCE " ++ strftimeDMY st ++ " BEFORE " ++ strftimeDMY (addOneDay en)

/-- Modelled from the spec (glossary: `BEFORE`/`SINCE` are day-granular
server-side predicates, `SINCE` inclusive and `BEFORE` exclusive): a
message whose date falls on day `msgDay` matches `SINCE s BEFORE b` iff
`s ≤ msgDay < b`. -/
def imapSinceBeforeMatches (sinceDay beforeDay msgDay : Int) : Prop :=
  sinceDay ≤ msgDay ∧ msgDay < beforeDay

/-- Per-message loop of `IMAPMailCleaner.delete_messages` (source lines
341-351), as a trace transformer.  `sf i = true` means the
`conn.store` call for message `i` raises; the surrounding `try` then
aborts the whole loop (the third component records that abort), which the
enclosing handler turns into an early return of the count accumulated so
far.  In dry-run mode no STORE is attempted, and the count is incremented
for every previewed message. -/
def deleteLoop (sf : String → Bool) (dryRun : Bool) :
    List String → List Cmd × Nat × Bool
  | [] => ([], 0, false)
  | i :: rest =>
    if dryRun then
      let r := deleteLoop sf dryRun rest
      (Cmd.fetch i :: r.1, r.2.1 + 1, r.2.2)
    else if sf i then
      ([Cmd.fetch i, Cmd.store i], 0, true)
    else
      let r := deleteLoop sf dryRun rest
      (Cmd.fetch i :: Cmd.store i :: r.1, r.2.1 + 1, r.2.2)

/-- Embedding of `IMAPMailCleaner.delete_messages` (source lines
319-361): empty input returns 0 with no command issued; otherwise the
per-message loop runs, and a single `EXPUNGE` follows exactly when the
run is not a dry run and the loop was not aborted by a raised STORE
(an exception jumps to the handler, skipping the expunge and returning
`deleted_count`). -/
def delete_messages (sf : String → Bool) (message_ids : List String)
    (dryRun : Bool) : List Cmd × Nat :=
  if message_ids.isEmpty then ([], 0)
  else
    let r := deleteLoop sf dryRun message_ids
    if dryRun = false ∧ r.2.2 = false then (r.1 ++ [Cmd.expunge], r.2.1)
    else (r.1, r.2.1)

/-- Oracles standing for everything outside the program under test: the
server's answers and the failure behaviour of individual calls.
`searchRes q = none` models a non-OK or raising `conn.search`;
`cutoffStr` is the `%d-%b-%Y` rendering of `now() - days` used by
`search_old_messages` (the wall clock is an external input). -/
structure Env where
  connectOk : Bool
  selectOk : String → Bool
  searchRes : String → Option (List String)
  headers : String → FetchResult
  parseDate : String → Option Int
  storeFails : String → Bool
  cutoffStr : String

/-- Embedding of `IMAPMailCleaner.search_messages_in_timerange` (source
lines 207-283): issue the day-granular SEARCH; on failure or no data
return `[]`; otherwise fetch each candidate's headers in order and keep
exactly those whose date parses into `[start_time, end_time]`. -/
def search_messages_in_timerange (env : Env) (st en : PyDateTime) :
    List Cmd × List String :=
  match env.searchRes (searchQuery st en) with
  | none => ([Cmd.search (searchQuery st en)], [])
  | some ids =>
      (Cmd.search (searchQuery st en) :: ids.map Cmd.fetch,
        (refineLoop env.headers env.parseDate (toMinutes st) (toMinutes en) ids).1)

/-- Embedding of `IMAPMailCleaner.search_old_messages` (source lines
175-205): a single `BEFORE <cutoff>` SEARCH, returning the server's ids
unrefined. -/
def search_old_messages (env : Env) : List Cmd × List String :=
  match env.searchRes ("BEFORE " ++ env.cutoffStr) with
  | none => ([Cmd.search ("BEFORE " ++ env.cutoffStr)], [])
  | some ids => ([Cmd.search ("BEFORE " ++ env.cutoffStr)], ids)

/-- Per-folder body of `main` (source lines 493-523): select the folder
(skipping it on failure), search by the active mode, and delete the found
messages when there are any. -/
def processFolder (env : Env) (mode : Option (PyDateTime × PyDateTime))
    (dryRun : Bool) (folder : String) : List Cmd × Nat :=
  if env.selectOk folder then
    let sr := match mode with
      | some (st, en) => search_messages_in_timerange env st en
      | none => search_old_messages env
    if sr.2.isEmpty then (Cmd.select folder :: sr.1, 0)
    else
      let dr := delete_messages env.storeFails sr.2 dryRun
      (Cmd.select folder :: (sr.1 ++ dr.1), dr.2)
  else ([Cmd.select folder], 0)

/-- Command-line inputs that reach `main` after `argparse`:
`folders` is `args.folders` or the singleton `[args.folder]`. -/
structure Args where
  listFolders : Bool
  timeRange : Option (String × String)
  days : Nat
  dryRun : Bool
  folders : List String

/-- Embedding of `main` (source lines 419-535) as process exit code plus
issued network command trace.  It connects and logs in FIRST (line 449);
only afterwards, inside the guarded block, does it branch on
`--list-folders` and parse the time range; a bad or reversed time range
hits a plain `return`, so the `finally` logout runs and the process exits
0.  A failed connect exits 1 via `sys.exit(1)`. -/
def mainRun (env : Env) (a : Args) : Nat × List Cmd :=
  if env.connectOk then
    if a.listFolders then (0, [Cmd.connect, Cmd.login, Cmd.listCmd, Cmd.logout])
    else
      match a.timeRange with
      | some se =>
        match parse_time_str se.1, parse_time_str se.2 with
        | some st, some en =>
          if toMinutes en < toMinutes st then (0, [Cmd.connect, Cmd.login, Cmd.logout])
          else
            (0, [Cmd.connect, Cmd.login] ++
              (a.folders.flatMap fun f => (processFolder env (some (st, en)) a.dryRun f).1) ++
              [Cmd.logout])
        | _, _ => (0, [Cmd.connect, Cmd.login, Cmd.logout])
      | none =>
        (0, [Cmd.connect, Cmd.login] ++
          (a.folders.flatMap fun f => (processFolder env none a.dryRun f).1) ++
          [Cmd.logout])
  else (1, [Cmd.connect])

/-- Standard output streams a piece of text can be written to. -/
inductive StdStream
  | stdout
  | stderr
deriving DecidableEq

/-- Stream the logging handler is attached to: source lines 48-55
configure `logging.StreamHandler(sys.stdout)`, so every `logger.info`,
`logger.warning` and `logger.error` diagnostic goes to stdout. -/
def loggingHandlerStream : StdStream := StdStream.stdout

/-- Format string passed to `logging.basicConfig` at line 51. -/
def loggingFormatString : String := "%(asctime)s - %(levelname)s - %(message)s"

/-- Stream used by the bare `print` for the folder listing (line 461):
Python `print` writes to stdout. -/
def folderListingStream : StdStream := StdStream.stdout

theorem deleteLoop_dryRun (sf : String → Bool) (ids : List String) :
    deleteLoop sf true ids = (ids.map Cmd.fetch, ids.length, false) := by
  induction ids with
  | nil => rfl
  | cons i rest ih => simp [deleteLoop, ih]

theorem deleteLoop_ok (sf : String → Bool) (ids : List String)
    (h : ids.all (fun i => !sf i) = true) :
    deleteLoop sf false ids =
      (ids.flatMap (fun i => [Cmd.fetch i, Cmd.store i]), ids.length, false) := by
  induction ids with
  | nil => rfl
  | cons i rest ih =>
    simp only [List.all_cons, Bool.and_eq_true, Bool.not_eq_eq_eq_not, Bool.not_true] at h
    simp [deleteLoop, h.1, ih h.2]

theorem deleteLoop_abort_flag (sf : String → Bool) (ids : List String) :
    (deleteLoop sf false ids).2.2 = !(ids.all fun i => !sf i) := by
  induction ids with
  | nil => rfl
  | cons i rest ih =>
    cases hsf : sf i <;> simp [deleteLoop, hsf, ih]

theorem deleteLoop_success_count (sf : String → Bool) (ids : List String) :
    (deleteLoop sf false ids).2.1 = (ids.takeWhile fun i => !sf i).length := by
  induction ids with
  | nil => rfl
  | cons i rest ih =>
    cases hsf : sf i <;> simp [deleteLoop, hsf, List.takeWhile_cons, ih]

theorem deleteLoop_no_expunge (sf : String → Bool) (dryRun : Bool) (ids : List String) :
    (deleteLoop sf dryRun ids).1.count Cmd.expunge = 0 := by
  cases dryRun
  · induction ids with
    | nil => rfl
    | cons i rest ih =>
      cases hsf : sf i
      · simpa [deleteLoop, hsf, List.count_cons] using ih
      · simp [deleteLoop, hsf, List.count_cons]
  · rw [deleteLoop_dryRun]
    refine List.count_eq_zero.mpr ?_
    intro hmem
    rcases List.mem_map.mp hmem with ⟨j, -, hj⟩
    exact Cmd.noConfusion hj

/-- C2: with `dry_run = True`, `delete_messages` issues exactly one
header FETCH per message for the preview and nothing else — in
particular no STORE, no EXPUNGE and no other flag-mutating command — and
counts every previewed message. -/
theorem delete_messages_dry_run_safe (sf : String → Bool) (ids : List String) :
    delete_messages sf ids true = (ids.map Cmd.fetch, ids.length) := by
  cases ids with
  | nil => rfl
  | cons i rest => simp [delete_messages, deleteLoop_dryRun]

/-- C10: calling `delete_messages` with an empty message-id list returns
0 and issues no IMAP command at all — no FETCH, no STORE and no EXPUNGE —
whatever the dry-run flag is, so a run that selected nothing never
expunges previously flagged messages. -/
theorem delete_messages_empty_noop (sf : String → Bool) (dryRun : Bool) :
    delete_messages sf [] dryRun = ([], 0) := rfl

/-- Store-failure oracle used in concrete runs: the STORE for message id
"2" raises, every other STORE succeeds. -/
def storeFailsOn2 : String → Bool := fun s => s == "2"

/-- C4 counterexample: with messages `["1", "2", "3"]` and the STORE for
"2" raising, message "3" never gets a STORE attempt — the loop aborts —
refuting the claim that processing continues with the remaining
messages. -/
theorem delete_messages_store_abort_cex :
    Cmd.store "3" ∉ (delete_messages storeFailsOn2 ["1", "2", "3"] false).1 ∧
    (delete_messages storeFailsOn2 ["1", "2", "3"] false).2 = 1 := by decide

/-- C4 amended: when the STORE for one message raises, the failure is
logged and `delete_messages` stops: messages before the failing one are
fetched and flagged, the failing one is fetched and its STORE attempted,
no later message is touched, no EXPUNGE is issued, and the count of
successfully flagged messages so far is returned. -/
theorem delete_messages_store_abort (sf : String → Bool) (pre : List String)
    (i : String) (post : List String)
    (hpre : pre.all (fun j => !sf j) = true) (hi : sf i = true) :
    delete_messages sf (pre ++ i :: post) false =
      ((pre.flatMap fun j => [Cmd.fetch j, Cmd.store j]) ++
        [Cmd.fetch i, Cmd.store i], pre.length) := by
  have hloop : deleteLoop sf false (pre ++ i :: post) =
      ((pre.flatMap fun j => [Cmd.fetch j, Cmd.store j]) ++
        [Cmd.fetch i, Cmd.store i], pre.length, true) := by
    induction pre with
    | nil => simp [deleteLoop, hi]
    | cons j rest ih =>
      simp only [List.all_cons, Bool.and_eq_true, Bool.not_eq_eq_eq_not,
        Bool.not_true] at hpre
      simp [deleteLoop, hpre.1, ih hpre.2]
  simp [delete_messages, hloop]

/-- C4 witness: a concrete instance of the amended statement, with the
failing STORE in the middle of a three-message list. -/
theorem delete_messages_store_abort_witness :
    (["1"].all (fun j => !storeFailsOn2 j) = true) ∧ storeFailsOn2 "2" = true ∧
    delete_messages storeFailsOn2 (["1"] ++ "2" :: ["3"]) false =
      (((["1"].flatMap fun j => [Cmd.fetch j, Cmd.store j]) ++
        [Cmd.fetch "2", Cmd.store "2"]), ["1"].length) :=
  ⟨by decide, by decide,
    delete_messages_store_abort storeFailsOn2 ["1"] "2" ["3"] (by decide) (by decide)⟩

/-- C6 counterexample: with messages `["1", "2"]` and the STORE for "2"
raising, one message was flagged (the returned count is 1) yet no EXPUNGE
is issued, refuting "a single EXPUNGE is issued iff at least one message
was flagged". -/
theorem delete_messages_expunge_iff_cex :
    1 ≤ (delete_messages storeFailsOn2 ["1", "2"] false).2 ∧
    Cmd.expunge ∉ (delete_messages storeFailsOn2 ["1", "2"] false).1 := by decide

/-- C6 amended: for a non-empty list with `dry_run = False`, a single
EXPUNGE is issued iff every message's STORE succeeded (on a raised STORE
the loop aborts and the EXPUNGE is skipped even though earlier messages
were flagged), and the returned count is the number of messages whose
STORE succeeded — the length of the failure-free prefix — never the
EXPUNGE response. -/
theorem delete_messages_expunge_count (sf : String → Bool) (ids : List String)
    (hne : ids ≠ []) :
    ((delete_messages sf ids false).1.count Cmd.expunge =
      if ids.all (fun i => !sf i) then 1 else 0) ∧
    (delete_messages sf ids false).2 = (ids.takeWhile fun i => !sf i).length := by
  have hns : ids.isEmpty = false := by
    cases ids with
    | nil => exact absurd rfl hne
    | cons i rest => rfl
  have hflag := deleteLoop_abort_flag sf ids
  have hcount := deleteLoop_success_count sf ids
  have hnoexp := deleteLoop_no_expunge sf false ids
  by_cases hall : ids.all (fun i => !sf i) = true
  · simp [delete_messages, hns, hall, hflag, hcount, hnoexp, List.count_append]
  · have hall2 : ids.all (fun i => !sf i) = false := by
      cases h : ids.all (fun i => !sf i)
      · rfl
      · exact absurd h hall
    simp [delete_messages, hns, hall2, hflag, hcount, hnoexp]

/-- C6 witness: a concrete two-message run in which every STORE succeeds:
exactly one EXPUNGE is issued and the returned count is 2. -/
theorem delete_messages_expunge_count_witness :
    ((["1", "2"] : List String) ≠ []) ∧
    ((delete_messages (fun _ => false) ["1", "2"] false).1.count Cmd.expunge =
      if (["1", "2"] : List String).all (fun i => !(fun (_ : String) => false) i)
        then 1 else 0) ∧
    (delete_messages (fun _ => false) ["1", "2"] false).2 =
      ((["1", "2"] : List String).takeWhile fun i => !(fun (_ : String) => false) i).length := by
  refine ⟨by decide, ?_⟩
  exact delete_messages_expunge_count (fun _ => false) ["1", "2"] (by decide)

/-- C1: the refinement pass of `search_messages_in_timerange` applied to
the candidate list the server returned keeps exactly those candidates
whose fetched Date header parses as an aware RFC 5322 instant `t` with
`start ≤ t ≤ end` (closed interval, so a message dated exactly `end` is
kept), in the server's order — it is a filter of the candidate list. -/
theorem refineLoop_exact_filter (h : String → FetchResult)
    (pd : String → Option Int) (st en : PyDateTime) (ids : List String) :
    (refineLoop h pd (toMinutes st) (toMinutes en) ids).1 =
      ids.filter fun i =>
        match pd (get_message_info h i).2.2 with
        | some t => decide (toMinutes st ≤ t ∧ t ≤ toMinutes en)
        | none => false := by
  induction ids with
  | nil => rfl
  | cons i rest ih =>
    simp only [refineLoop, List.filter_cons]
    cases hpd : pd (get_message_info h i).2.2 with
    | none => simpa [hpd] using ih
    | some t =>
      by_cases hin : toMinutes st ≤ t ∧ t ≤ toMinutes en
      · simp [hpd, hin, ih]
      · simp [hpd, hin, ih]

/-- C7: `get_message_info` substitutes the sentinel strings for each
header missing from a successfully fetched header section, returns three
empty strings whenever the fetch fails (raised exception, non-OK status,
or empty data), and — being a total function of the fetch outcome — never
propagates an exception to its caller. -/
theorem get_message_info_spec (h : String → FetchResult) (i : String) :
    ((h i = FetchResult.exn ∨ h i = FetchResult.notOk ∨ h i = FetchResult.emptyData) →
      get_message_info h i = ("", "", "")) ∧
    (∀ s f d, h i = FetchResult.ok s f d →
      get_message_info h i =
        (s.getD "No Subject", f.getD "Unknown Sender", d.getD "Unknown Date")) := by
  constructor
  · intro hfail
    rcases hfail with hf | hf | hf <;> simp [get_message_info, hf]
  · intro s f d hok
    simp [get_message_info, hok]

/-- Header oracle used in concrete runs: message "1" fetches a header
section with only a From field, any other id's fetch raises. -/
def headersOnlyFrom : String → FetchResult := fun i =>
  if i = "1" then FetchResult.ok none (some "a@example.com") none else FetchResult.exn

/-- C7 witness: concrete evaluations — missing Subject and Date headers
fall back to the sentinels, and a raising fetch yields empty strings. -/
theorem get_message_info_spec_witness :
    get_message_info headersOnlyFrom "1" =
      ("No Subject", "a@example.com", "Unknown Date") ∧
    get_message_info headersOnlyFrom "2" = ("", "", "") :=
  ⟨(get_message_info_spec headersOnlyFrom "1").2 none (some "a@example.com") none
      (by decide),
    (get_message_info_spec headersOnlyFrom "2").1 (Or.inl (by decide))⟩

/-- C9 witness: the round trip evaluated at the concrete instant
2023-06-10 09:05 UTC. -/
theorem strptime_format_roundtrip_witness :
    validDT ⟨2023, 6, 10, 9, 5⟩ ∧
    parse_time_str (formatYmdHM ⟨2023, 6, 10, 9, 5⟩) = some ⟨2023, 6, 10, 9, 5⟩ :=
  ⟨by decide, strptime_format_roundtrip ⟨2023, 6, 10, 9, 5⟩ (by decide)⟩

/-- C3: in time-window mode with `start ≤ end` the emitted server
predicate is exactly `SINCE <date(start)> BEFORE <date(end) + 1 day>`
with both dates rendered `DD-Mon-YYYY` (the `BEFORE` date is the calendar
day right after `end`'s), and the day-granular server match set —
`SINCE` inclusive, `BEFORE` exclusive — contains every message whose
header date lies in `[start, end]`. -/
theorem searchQuery_window_superset (st en : PyDateTime) (hst : validDT st)
    (hen : validDT en) (_hse : toMinutes st ≤ toMinutes en) :
    searchQuery st en =
      "SINCE " ++ strftimeDMY st ++ " BEFORE " ++ strftimeDMY (addOneDay en) ∧
    dayNum (addOneDay en) = dayNum en + 1 ∧
    ∀ t : PyDateTime, validDT t → toMinutes st ≤ toMinutes t →
      toMinutes t ≤ toMinutes en →
      imapSinceBeforeMatches (dayNum st) (dayNum (addOneDay en)) (dayNum t) := by
  refine ⟨rfl, dayNum_addOneDay en hen, ?_⟩
  intro t ht h1 h2
  have ha := dayNum_mono st t hst ht h1
  have hb := dayNum_mono t en ht hen h2
  have hc := dayNum_addOneDay en hen
  have hd : dayNum t < dayNum (addOneDay en) := by omega
  exact ⟨ha, hd⟩

/-- C3 witness: the window 2023-06-10 09:00 to 10:00 yields the predicate
`SINCE 10-Jun-2023 BEFORE 11-Jun-2023`, which matches the in-window
instant 09:30 of that day. -/
theorem searchQuery_window_superset_witness :
    validDT ⟨2023, 6, 10, 9, 0⟩ ∧ validDT ⟨2023, 6, 10, 10, 0⟩ ∧
    toMinutes ⟨2023, 6, 10, 9, 0⟩ ≤ toMinutes ⟨2023, 6, 10, 10, 0⟩ ∧
    validDT ⟨2023, 6, 10, 9, 30⟩ ∧
    searchQuery ⟨2023, 6, 10, 9, 0⟩ ⟨2023, 6, 10, 10, 0⟩ =
      "SINCE 10-Jun-2023 BEFORE 11-Jun-2023" ∧
    imapSinceBeforeMatches (dayNum ⟨2023, 6, 10, 9, 0⟩)
      (dayNum (addOneDay ⟨2023, 6, 10, 10, 0⟩)) (dayNum ⟨2023, 6, 10, 9, 30⟩) := by
  refine ⟨by decide, by decide, by decide, by decide, ?_, ?_⟩
  · have h := (searchQuery_window_superset ⟨2023, 6, 10, 9, 0⟩ ⟨2023, 6, 10, 10, 0⟩
      (by decide) (by decide) (by decide)).1
    rw [h]
    rfl
  · exact (searchQuery_window_superset ⟨2023, 6, 10, 9, 0⟩ ⟨2023, 6, 10, 10, 0⟩
      (by decide) (by decide) (by decide)).2.2 ⟨2023, 6, 10, 9, 30⟩
      (by decide) (by decide) (by decide)

/-- C8 counterexample: the logging handler is attached to stdout, not
stderr, so progress, warning and error diagnostics are not written to
stderr as claimed. -/
theorem loggingHandlerStream_cex : loggingHandlerStream ≠ StdStream.stderr := by
  decide

/-- C8 amended: all progress, warning and error diagnostics are written
to STDOUT (the handler is `logging.StreamHandler(sys.stdout)`) with the
format string `%(asctime)s - %(levelname)s - %(message)s`; the folder
listing also goes to stdout. -/
theorem logging_streams_config :
    loggingHandlerStream = StdStream.stdout ∧
    folderListingStream = StdStream.stdout ∧
    loggingFormatString = "%(asctime)s - %(levelname)s - %(message)s" :=
  ⟨rfl, rfl, rfl⟩

/-- Concrete oracle bundle for whole-program runs: connect succeeds,
every SELECT succeeds, every SEARCH returns no messages, every header
fetch raises, no date parses, no STORE raises. -/
def env0 : Env :=
  ⟨true, fun _ => true, fun _ => some [], fun _ => FetchResult.exn,
    fun _ => none, fun _ => false, "01-Jan-2024"⟩

/-- Concrete command line: `--time-range "2023-06-10" "2023-06-01"`
(reversed window) against folder INBOX, deletion mode. -/
def args0 : Args :=
  ⟨false, some ("2023-06-10", "2023-06-01"), 30, false, ["INBOX"]⟩

/-- C5 counterexample: on a reversed window the process exit code is 0,
not 2, and a network call (the connect, with its login) has already been
issued before the window is even examined — refuting both halves of the
claim. -/
theorem mainRun_reversed_cex :
    (mainRun env0 args0).1 ≠ 2 ∧ Cmd.connect ∈ (mainRun env0 args0).2 := by
  decide

/-- C5 amended: `main` connects and logs in first; when the time-range
arguments fail to parse (`BadTimestamp`) or parse reversed
(`ReversedWindow`), it logs the error and returns normally — process exit
code 0 — after the guaranteed logout, issuing no folder commands: the
trace is exactly connect, login, logout (no SELECT, SEARCH, FETCH, STORE
or EXPUNGE). -/
theorem mainRun_badWindow_noFolderCmds (env : Env) (a : Args) (s e : String)
    (hc : env.connectOk = true) (hl : a.listFolders = false)
    (htr : a.timeRange = some (s, e))
    (hbad : parse_time_str s = none ∨ parse_time_str e = none ∨
      ∃ st en, parse_time_str s = some st ∧ parse_time_str e = some en ∧
        toMinutes en < toMinutes st) :
    mainRun env a = (0, [Cmd.connect, Cmd.login, Cmd.logout]) := by
  rcases hbad with h | h | ⟨st, en, hs, he, hlt⟩
  · simp [mainRun, hc, hl, htr, h]
  · cases hps : parse_time_str s <;> simp [mainRun, hc, hl, htr, h, hps]
  · simp [mainRun, hc, hl, htr, hs, he, hlt]

/-- C5 witness: the amended statement evaluated on the concrete reversed
window `2023-06-10` .. `2023-06-01`. -/
theorem mainRun_badWindow_noFolderCmds_witness :
    env0.connectOk = true ∧ args0.listFolders = false ∧
    args0.timeRange = some ("2023-06-10", "2023-06-01") ∧
    mainRun env0 args0 = (0, [Cmd.connect, Cmd.login, Cmd.logout]) := by
  refine ⟨by decide, by decide, by decide, ?_⟩
  exact mainRun_badWindow_noFolderCmds env0 args0 "2023-06-10" "2023-06-01"
    (by decide) (by decide) (by decide)
    (Or.inr (Or.inr ⟨⟨2023, 6, 10, 0, 0⟩, ⟨2023, 6, 1, 0, 0⟩,
      by decide, by decide, by decide⟩))
